import Mathlib

/-!
# Verification of the inventory-ai pricing / market-aggregation core

Shallow embedding of the pricing pipeline of `src/inventory-ai/src/lib/apify.ts`
(`parsePrice`, `calculateSimilarity`) and
`src/inventory-ai/src/lib/dynamic-pricing.ts` (`DynamicPricingService`).

Conventions of the embedding:
* JavaScript numbers are modelled by `ℚ` (all arithmetic in the pipeline is
  exact on the inputs we consider; the only JS `NaN`/`Infinity` producing spot,
  the ratio in `determineCompetitivePosition`, is modelled explicitly).
* JS strings are Lean `String`s; `toLowerCase` is modelled by `String.toLower`
  (they agree on ASCII, which covers every string the table lookups compare
  against).
* `async` collaborator results (`gatherEnhancedMarketData`,
  `analyzeMarketTrends`) are passed to the orchestrator as explicit arguments.
* Absent / optional JS fields are `Option`s; JS truthiness tests are modelled
  at each use site (documented there).
-/

namespace InventoryAI

/-! ## JavaScript string primitives -/

/-- Worker for `jsSplitWs`.  `skipping = true` means the scanner stands
inside a run of whitespace whose leading separator was already emitted;
`acc` holds the reversed characters of the token currently being read. -/
def jsSplitWsGo (skipping : Bool) (acc : List Char) : List Char → List (List Char)
  | [] => if skipping then [[]] else [acc.reverse]
  | c :: cs =>
    if skipping then
      if c.isWhitespace then jsSplitWsGo true [] cs
      else jsSplitWsGo false [c] cs
    else
      if c.isWhitespace then acc.reverse :: jsSplitWsGo true [] cs
      else jsSplitWsGo false (c :: acc) cs

/-- JS `String.prototype.split(/\s+/)` on a list of characters: the string is
cut at every maximal run of whitespace, keeping the (possibly empty) pieces
before the first run and after the last one.  In particular
`jsSplitWs [] = [[]]`, matching `"".split(/\s+/) === [""]`. -/
def jsSplitWs (l : List Char) : List (List Char) :=
  jsSplitWsGo false [] l

/-- JS `String.prototype.toLowerCase`, character by character (identical to
the JS function on ASCII, which covers every comparison in the pipeline). -/
def jsLower (s : String) : String :=
  String.mk (s.data.map Char.toLower)

/-- The token list of a title: `title.toLowerCase().split(/\s+/)`. -/
def jsTokens (s : String) : List String :=
  (jsSplitWs (jsLower s).data).map fun cs => String.mk cs

/-- `calculateSimilarity` (apify.ts, lines 225–233), verbatim:
`words1.filter(w => words2.includes(w)).length / [...new Set([...words1, ...words2])].length`.
Note that the numerator keeps duplicates of `words1`; the denominator is the
number of distinct tokens. -/
def calculateSimilarity (title1 title2 : String) : ℚ :=
  let words1 := jsTokens title1
  let words2 := jsTokens title2
  let intersection := words1.filter fun w => decide (w ∈ words2)
  let union := (words1 ++ words2).dedup
  (intersection.length : ℚ) / (union.length : ℚ)

/-- The token-set Jaccard index described by the spec (§3 SimilarityScore,
§4.2): duplicates collapsed to sets on BOTH sides, `|s1 ∩ s2| / |s1 ∪ s2|`.
This is the spec-side definition used to compare `calculateSimilarity`
against. -/
def tokenSetJaccard (title1 title2 : String) : ℚ :=
  let s1 := (jsTokens title1).dedup
  let s2 := (jsTokens title2).dedup
  let inter := s1.filter fun w => decide (w ∈ s2)
  let union := (s1 ++ s2).dedup
  (inter.length : ℚ) / (union.length : ℚ)

/-! ## Price parsing (apify.ts, lines 213–220) -/

/-- The argument of `parsePrice`: `string | number | undefined`. -/
inductive PriceInput where
  | num (q : ℚ)
  | str (s : String)
  | undef
deriving DecidableEq

/-- JS `String.prototype.replace(',', '')` with a string pattern: only the
FIRST comma is removed. -/
def removeFirstComma : List Char → List Char
  | [] => []
  | c :: cs => if c = ',' then cs else c :: removeFirstComma cs

/-- Value of a (possibly empty) list of decimal digit characters. -/
def digitsToNat (ds : List Char) : ℕ :=
  ds.foldl (fun n c => 10 * n + (c.toNat - 48)) 0

/-- JS `parseFloat`, restricted to strings made of digits, `.` and `,` — the
only inputs it receives in `parsePrice` (everything else was stripped).
`parseFloat` reads the longest prefix of the form `digits[.digits]` and is
`NaN` (here `none`) when that prefix has no digit. -/
def jsParseFloat (l : List Char) : Option ℚ :=
  let intPart := l.takeWhile Char.isDigit
  let rest := l.dropWhile Char.isDigit
  match rest with
  | '.' :: rest2 =>
    let fracPart := rest2.takeWhile Char.isDigit
    if intPart.isEmpty && fracPart.isEmpty then none
    else some ((digitsToNat intPart : ℚ) + (digitsToNat fracPart : ℚ) / (10 : ℚ) ^ fracPart.length)
  | _ => if intPart.isEmpty then none else some (digitsToNat intPart)

/-- `parsePrice` (apify.ts): a number is returned as is; a falsy value
(`undefined` or the empty string) gives `0`; otherwise every character except
digits, `.` and `,` is stripped, the first comma is removed
(`cleaned.replace(',', '')`), the rest is `parseFloat`ed, and `NaN` becomes
`0`. -/
def parsePrice : PriceInput → ℚ
  | .num q => q
  | .undef => 0
  | .str s =>
    if s = "" then 0
    else
      let cleaned := s.data.filter fun c => c.isDigit || c == '.' || c == ','
      match jsParseFloat (removeFirstComma cleaned) with
      | none => 0
      | some q => q

/-! ## Dynamic pricing (dynamic-pricing.ts) -/

/-- An eBay market-data item; only `price` is read by the pricing code. -/
structure EbayItem where
  price : ℚ
deriving DecidableEq

/-- A Google Shopping market-data item; only `price` is read. -/
structure GoogleShoppingItem where
  price : ℚ
deriving DecidableEq

/-- A `FacebookMarketplaceListing`; only `salePrice` is read. -/
structure FacebookListing where
  salePrice : ℚ
deriving DecidableEq

/-- `primaryMarketData`: the code guards each source with
`if (primaryMarketData.ebay)` etc., so each source is optional
(`none` models an absent/undefined field). -/
structure MarketData where
  ebay : Option (List EbayItem)
  googleShopping : Option (List GoogleShoppingItem)
deriving DecidableEq

/-- `enhancedMarketData`: the code reads `enhancedMarketData.facebook?.listings`
through an optional chain, modelled by one `Option`. -/
structure EnhancedMarketData where
  facebookListings : Option (List FacebookListing)
deriving DecidableEq

/-- The `marketTrends` record consumed by `selectOptimalPrice` (produced by the
external trend collaborator). -/
structure MarketTrends where
  direction : String
  confidence : ℚ
  factors : List String
deriving DecidableEq

/-- `productData.condition : { grade: string; score: number }`. -/
structure Condition where
  grade : String
  score : ℚ
deriving DecidableEq

/-- The product context fields read by the pricing chain. -/
structure ProductData where
  title : String
  category : String
  brand : String
  condition : Condition
deriving DecidableEq

/-- The `options` argument; all fields optional in TS. -/
structure PricingOptions where
  strategy : Option String
  competitivePosition : Option String
deriving DecidableEq

/-- JS `options.x || 'default'`: an absent field or the empty string (both
falsy) fall back to the default. -/
def jsOrDefault (o : Option String) (d : String) : String :=
  match o with
  | none => d
  | some s => if s = "" then d else s

/-- The positive prices pushed into `allPrices` by `calculateBasePrice`:
each source is mapped to its price field and filtered by `p > 0` before
being appended. -/
def pooledPrices (md : MarketData) (emd : EnhancedMarketData) : List ℚ :=
  ((md.ebay.getD []).map EbayItem.price).filter (fun p => decide (0 < p))
    ++ ((md.googleShopping.getD []).map GoogleShoppingItem.price).filter (fun p => decide (0 < p))
    ++ ((emd.facebookListings.getD []).map FacebookListing.salePrice).filter (fun p => decide (0 < p))

/-- Ascending numeric sort, modelling `allPrices.sort((a, b) => a - b)`. -/
def sortAsc (l : List ℚ) : List ℚ :=
  l.insertionSort (· ≤ ·)

/-- The median selection applied by the code to an already-sorted array:
even length → average of the two middle elements, odd length → the middle
element (`allPrices[Math.floor(allPrices.length / 2)]`). -/
def medianOfSorted (s : List ℚ) : ℚ :=
  if s.length % 2 = 0 then
    (s.getD (s.length / 2 - 1) 0 + s.getD (s.length / 2) 0) / 2
  else
    s.getD (s.length / 2) 0

/-- `calculateBasePrice` (dynamic-pricing.ts, lines 221–250): pool the
positive prices of all three sources, return 0 when none, else the median of
the ascending sort. -/
def calculateBasePrice (md : MarketData) (emd : EnhancedMarketData) : ℚ :=
  let allPrices := pooledPrices md emd
  if allPrices.isEmpty then 0
  else medianOfSorted (sortAsc allPrices)

/-- `conditionGrade.toLowerCase().replace(/[^a-z-]/g, '')`. -/
def normalizeGrade (g : String) : String :=
  String.mk ((jsLower g).data.filter fun c => ('a' ≤ c && c ≤ 'z') || c == '-')

/-- The `conditionMultipliers` table. -/
def conditionMultipliersTable (g : String) : Option ℚ :=
  if g = "new-in-package" then some 1.0
  else if g = "new" then some 0.85
  else if g = "like-new" then some 0.75
  else if g = "good" then some 0.65
  else if g = "acceptable" then some 0.45
  else if g = "poor" then some 0.25
  else none

/-- `getConditionMultiplier` (lines 268–271):
`this.conditionMultipliers[normalizedGrade] || 0.6`.  Every table value is
nonzero (truthy), so `|| 0.6` fires exactly on missing keys. -/
def getConditionMultiplier (conditionGrade : String) : ℚ :=
  (conditionMultipliersTable (normalizeGrade conditionGrade)).getD 0.6

/-- The combined condition multiplier computed inside
`applyConditionAdjustment` (lines 255–263).  `condition.score ? ... : 0` is
a JS truthiness test: a score of exactly 0 skips the fine-tuning. -/
def conditionFinalMultiplier (condition : Condition) : ℚ :=
  let multiplier := getConditionMultiplier condition.grade
  let scoreAdjustment := if condition.score ≠ 0 then (condition.score - 0.5) * 0.2 else 0
  max 0.1 (min 1.0 (multiplier + scoreAdjustment))

/-- `applyConditionAdjustment`: `basePrice * finalMultiplier`. -/
def applyConditionAdjustment (basePrice : ℚ) (condition : Condition) : ℚ :=
  basePrice * conditionFinalMultiplier condition

/-- The `categoryMultipliers` table; an unknown key falls back to
`categoryMultipliers.default = 0.6` (the stored key `"default"` also maps
to 0.6). -/
def categoryMultiplierOf (c : String) : ℚ :=
  if c = "electronics" then 0.7
  else if c = "clothing" then 0.4
  else if c = "automotive" then 0.8
  else if c = "collectibles" then 0.9
  else if c = "books" then 0.3
  else if c = "home" then 0.6
  else if c = "sports" then 0.5
  else 0.6

/-- The `brandMultipliers` table; unknown brands fall back to
`brandMultipliers['default'] = 0.6`. -/
def brandMultiplierOf (b : String) : ℚ :=
  if b = "apple" then 0.8
  else if b = "samsung" then 0.7
  else if b = "nike" then 0.6
  else if b = "adidas" then 0.6
  else if b = "louis vuitton" then 0.85
  else if b = "gucci" then 0.85
  else if b = "rolex" then 0.9
  else 0.6

/-- `applyCategoryAdjustment`: weighted blend
`(categoryMultiplier * 0.7) + (brandMultiplier * 0.3)`. -/
def applyCategoryAdjustment (price : ℚ) (category brand : String) : ℚ :=
  let categoryMultiplier := categoryMultiplierOf (jsLower category)
  let brandMultiplier := brandMultiplierOf (jsLower brand)
  price * (categoryMultiplier * 0.7 + brandMultiplier * 0.3)

/-- `applyCompetitivePositioning`: aggressive ×0.9, premium ×1.15,
competitive/default ×0.95. -/
def applyCompetitivePositioning (price : ℚ) (position : String) : ℚ :=
  if position = "aggressive" then price * 0.9
  else if position = "premium" then price * 1.15
  else price * 0.95

/-- `selectOptimalPrice` (lines 325–347): `velocity` and `margin` return
their bound; `balanced` and every unrecognized strategy fall through to the
trend-driven default. -/
def selectOptimalPrice (competitivePrice velocityPrice marginPrice : ℚ)
    (strategy : String) (marketTrends : MarketTrends) : ℚ :=
  if strategy = "velocity" then velocityPrice
  else if strategy = "margin" then marginPrice
  else
    if marketTrends.direction = "up" ∧ marketTrends.confidence > 0.7 then marginPrice
    else if marketTrends.direction = "down" ∧ marketTrends.confidence > 0.7 then velocityPrice
    else competitivePrice

/-- `determineCompetitivePosition`: thresholds on
`ratio = recommendedPrice / basePrice`.  When `basePrice = 0` the JS ratio is
`NaN` (0/0) or `±Infinity`; every `<` test below is false for `NaN` and
`+Infinity`, and the first is true for `-Infinity`, which the model spells
out. -/
def determineCompetitivePosition (recommendedPrice basePrice : ℚ) : String :=
  if basePrice = 0 then
    if recommendedPrice < 0 then "Aggressive - Priced for quick sale"
    else "Luxury - Premium market positioning"
  else
    let r := recommendedPrice / basePrice
    if r < 0.85 then "Aggressive - Priced for quick sale"
    else if r < 0.95 then "Competitive - Priced to move"
    else if r < 1.05 then "Market Rate - Fair market pricing"
    else if r < 1.15 then "Premium - Higher margin positioning"
    else "Luxury - Premium market positioning"

/-- The fixed bucket boundaries of the price distribution built by
`analyzeComparables`. -/
structure PriceDistribution where
  under25 : ℕ
  from25to50 : ℕ
  from50to100 : ℕ
  from100to250 : ℕ
  from250to500 : ℕ
  over500 : ℕ
deriving DecidableEq

/-- The all-zero distribution (the starting counters of the `forEach`). -/
def emptyDistribution : PriceDistribution :=
  ⟨0, 0, 0, 0, 0, 0⟩

/-- One step of the `allPrices.forEach` bucket-counting if-chain. -/
def addToDistribution (d : PriceDistribution) (p : ℚ) : PriceDistribution :=
  if p < 25 then { d with under25 := d.under25 + 1 }
  else if p < 50 then { d with from25to50 := d.from25to50 + 1 }
  else if p < 100 then { d with from50to100 := d.from50to100 + 1 }
  else if p < 250 then { d with from100to250 := d.from100to250 + 1 }
  else if p < 500 then { d with from250to500 := d.from250to500 + 1 }
  else { d with over500 := d.over500 + 1 }

/-- The `comparableAnalysis` record. -/
structure ComparableAnalysis where
  medianPrice : ℚ
  averagePrice : ℚ
  totalComparables : ℕ
  priceDistribution : PriceDistribution
deriving DecidableEq

/-- The prices pooled by `analyzeComparables`: eBay and Google Shopping ONLY
(this function, unlike `calculateBasePrice`, never touches
`enhancedMarketData.facebook`). -/
def comparablePrices (md : MarketData) : List ℚ :=
  ((md.ebay.getD []).map EbayItem.price).filter (fun p => decide (0 < p))
    ++ ((md.googleShopping.getD []).map GoogleShoppingItem.price).filter (fun p => decide (0 < p))

/-- `analyzeComparables` (lines 365–417).  The empty case returns zeroed
statistics (the TS code returns an empty `priceDistribution` object there,
modelled as the all-zero counters). -/
def analyzeComparables (md : MarketData) : ComparableAnalysis :=
  let allPrices := comparablePrices md
  if allPrices.isEmpty then
    ⟨0, 0, 0, emptyDistribution⟩
  else
    { medianPrice := medianOfSorted (sortAsc allPrices)
      averagePrice := allPrices.foldl (· + ·) 0 / (allPrices.length : ℚ)
      totalComparables := allPrices.length
      priceDistribution := allPrices.foldl addToDistribution emptyDistribution }

/-- `priceRange` of the final analysis. -/
structure PriceRange where
  min : ℚ
  max : ℚ
deriving DecidableEq

/-- The `PricingAnalysis` output record. -/
structure PricingAnalysis where
  recommendedPrice : ℚ
  priceRange : PriceRange
  competitivePosition : String
  velocityOptimized : ℚ
  marginOptimized : ℚ
  conditionAdjustment : ℚ
  marketTrends : MarketTrends
  comparableAnalysis : ComparableAnalysis
deriving DecidableEq

/-- The competitive price produced by steps 2–5 of `analyzePricing`
(base price → condition → category/brand → positioning). -/
def competitivePriceOf (productData : ProductData) (md : MarketData)
    (options : PricingOptions) (emd : EnhancedMarketData) : ℚ :=
  applyCompetitivePositioning
    (applyCategoryAdjustment
      (applyConditionAdjustment (calculateBasePrice md emd) productData.condition)
      productData.category productData.brand)
    (jsOrDefault options.competitivePosition "competitive")

/-- `analyzePricing` (lines 80–156), with the two awaited collaborator
results (`gatherEnhancedMarketData`, `analyzeMarketTrends`) passed in as
arguments.  Every step is total, so the orchestrator is a total function of
its inputs. -/
def analyzePricing (productData : ProductData) (md : MarketData)
    (options : PricingOptions) (emd : EnhancedMarketData)
    (marketTrends : MarketTrends) : PricingAnalysis :=
  let basePrice := calculateBasePrice md emd
  let competitivePrice := competitivePriceOf productData md options emd
  let velocityPrice := competitivePrice * 0.85
  let marginPrice := competitivePrice * 1.1
  let recommendedPrice :=
    selectOptimalPrice competitivePrice velocityPrice marginPrice
      (jsOrDefault options.strategy "balanced") marketTrends
  { recommendedPrice := recommendedPrice
    priceRange := ⟨velocityPrice, marginPrice⟩
    competitivePosition := determineCompetitivePosition recommendedPrice basePrice
    velocityOptimized := velocityPrice
    marginOptimized := marginPrice
    conditionAdjustment := getConditionMultiplier productData.condition.grade
    marketTrends := marketTrends
    comparableAnalysis := analyzeComparables md }

/-- Spec-side definition of the standard median (spec §4.3 / §8): after an
ascending sort, the middle element for an odd count, the average of the two
middle elements for an even count, and 0 for the empty list. -/
def medianSpec (s : List ℚ) : ℚ :=
  if s = [] then 0
  else if s.length % 2 = 1 then s.getD (s.length / 2) 0
  else (s.getD (s.length / 2 - 1) 0 + s.getD (s.length / 2) 0) / 2

/-! ## Helper lemmas: tokens, dedup and similarity -/

theorem jsSplitWsGo_ne_nil (b : Bool) (acc l' : List Char) :
    jsSplitWsGo b acc l' ≠ [] := by
  induction l' generalizing b acc with
  | nil => cases b <;> simp [jsSplitWsGo]
  | cons c cs ih =>
    simp only [jsSplitWsGo]
    cases b <;> by_cases h : c.isWhitespace <;> simp [h, ih]

theorem jsTokens_ne_nil (s : String) : jsTokens s ≠ [] := by
  simp only [jsTokens, jsSplitWs, ne_eq, List.map_eq_nil_iff]
  exact jsSplitWsGo_ne_nil _ _ _

theorem tokensUnion_ne_nil (t1 t2 : String) :
    (jsTokens t1 ++ jsTokens t2).dedup ≠ [] := by
  rw [ne_eq, List.dedup_eq_nil, List.append_eq_nil]
  exact fun h => jsTokens_ne_nil t1 h.1

theorem toFinset_dedup_eq (l : List String) : l.dedup.toFinset = l.toFinset := by
  ext a
  simp [List.mem_dedup]

theorem dedup_length_eq_of_toFinset_eq {l1 l2 : List String}
    (h : l1.toFinset = l2.toFinset) : l1.dedup.length = l2.dedup.length := by
  rw [← List.card_toFinset, ← List.card_toFinset, h]

theorem length_filter_mem {l1 l2 : List String} (h1 : l1.Nodup) :
    (l1.filter fun w => decide (w ∈ l2)).length = (l1.toFinset ∩ l2.toFinset).card := by
  rw [← List.toFinset_card_of_nodup (h1.filter _)]
  congr 1
  ext a
  simp [List.mem_filter]

theorem calcSim_eq_jaccard_of_nodup {t1 t2 : String} (h : (jsTokens t1).Nodup) :
    calculateSimilarity t1 t2 = tokenSetJaccard t1 t2 := by
  simp only [calculateSimilarity, tokenSetJaccard]
  have hd1 : (jsTokens t1).dedup = jsTokens t1 := List.dedup_eq_self.mpr h
  have hp : (fun w => decide (w ∈ (jsTokens t2).dedup)) = fun w => decide (w ∈ jsTokens t2) := by
    funext w
    simp [List.mem_dedup]
  have hden : (jsTokens t1 ++ (jsTokens t2).dedup).dedup.length =
      (jsTokens t1 ++ jsTokens t2).dedup.length := by
    refine dedup_length_eq_of_toFinset_eq ?_
    rw [List.toFinset_append, List.toFinset_append, toFinset_dedup_eq]
  rw [hd1, hp, hden]

theorem jaccard_symm (t1 t2 : String) : tokenSetJaccard t1 t2 = tokenSetJaccard t2 t1 := by
  simp only [tokenSetJaccard]
  have hnum : ((jsTokens t1).dedup.filter fun w => decide (w ∈ (jsTokens t2).dedup)).length =
      ((jsTokens t2).dedup.filter fun w => decide (w ∈ (jsTokens t1).dedup)).length := by
    rw [length_filter_mem (List.nodup_dedup _), length_filter_mem (List.nodup_dedup _),
      Finset.inter_comm]
  have hden : ((jsTokens t1).dedup ++ (jsTokens t2).dedup).dedup.length =
      ((jsTokens t2).dedup ++ (jsTokens t1).dedup).dedup.length := by
    refine dedup_length_eq_of_toFinset_eq ?_
    rw [List.toFinset_append, List.toFinset_append, Finset.union_comm]
  rw [hnum, hden]

theorem calcSim_nonneg (t1 t2 : String) : 0 ≤ calculateSimilarity t1 t2 := by
  unfold calculateSimilarity
  exact div_nonneg (Nat.cast_nonneg _) (Nat.cast_nonneg _)

theorem calcSim_le_one_of_nodup {t1 t2 : String} (h : (jsTokens t1).Nodup) :
    calculateSimilarity t1 t2 ≤ 1 := by
  unfold calculateSimilarity
  refine div_le_one_of_le₀ ?_ (Nat.cast_nonneg _)
  have hlen : ((jsTokens t1).filter fun w => decide (w ∈ jsTokens t2)).length ≤
      (jsTokens t1 ++ jsTokens t2).dedup.length := by
    calc ((jsTokens t1).filter fun w => decide (w ∈ jsTokens t2)).length
        ≤ (jsTokens t1).length := List.length_filter_le _ _
      _ = (jsTokens t1).toFinset.card := (List.toFinset_card_of_nodup h).symm
      _ ≤ (jsTokens t1 ++ jsTokens t2).toFinset.card := by
          refine Finset.card_le_card ?_
          rw [List.toFinset_append]
          exact Finset.subset_union_left
      _ = (jsTokens t1 ++ jsTokens t2).dedup.length := List.card_toFinset _
  exact_mod_cast hlen

/-! ## Claims C1–C3: similarity scorer -/

/-- C1 (counterexample): at titles `"a a"` and `"a"` the computed similarity
is 2 while the token-set Jaccard index is 1 — the code's score is neither the
Jaccard index nor a value in [0,1], because the numerator keeps duplicate
tokens of the first title. -/
theorem C1_counterexample :
    calculateSimilarity "a a" "a" ≠ tokenSetJaccard "a a" "a" ∧
    1 < calculateSimilarity "a a" "a" := by
  have hnum : (List.filter (fun w => decide (w ∈ jsTokens "a")) (jsTokens "a a")).length = 2 := by
    decide
  have hden : ((jsTokens "a a" ++ jsTokens "a").dedup).length = 1 := by decide
  have hnum2 : (List.filter (fun w => decide (w ∈ (jsTokens "a").dedup))
      ((jsTokens "a a").dedup)).length = 1 := by decide
  have hden2 : (((jsTokens "a a").dedup ++ (jsTokens "a").dedup).dedup).length = 1 := by decide
  have h1 : calculateSimilarity "a a" "a" = 2 := by
    rw [calculateSimilarity, hnum, hden]
    norm_num
  have h2 : tokenSetJaccard "a a" "a" = 1 := by
    rw [tokenSetJaccard, hnum2, hden2]
    norm_num
  rw [h1, h2]
  norm_num

/-- C1 (amended): whenever the first title's token list has no duplicate
token, `calculateSimilarity` does equal the token-set Jaccard index over
lowercase whitespace-split tokens and lies in [0,1].  (Without that
restriction the numerator counts the first title's tokens with multiplicity
and the score can exceed 1.) -/
theorem C1_similarity_jaccard (t1 t2 : String) (h : (jsTokens t1).Nodup) :
    calculateSimilarity t1 t2 = tokenSetJaccard t1 t2 ∧
    0 ≤ calculateSimilarity t1 t2 ∧ calculateSimilarity t1 t2 ≤ 1 :=
  ⟨calcSim_eq_jaccard_of_nodup h, calcSim_nonneg t1 t2, calcSim_le_one_of_nodup h⟩

theorem C1_similarity_jaccard_witness :
    (jsTokens "red shoe").Nodup ∧
    (calculateSimilarity "red shoe" "red boot" = tokenSetJaccard "red shoe" "red boot" ∧
      0 ≤ calculateSimilarity "red shoe" "red boot" ∧
      calculateSimilarity "red shoe" "red boot" ≤ 1) :=
  ⟨by decide, C1_similarity_jaccard "red shoe" "red boot" (by decide)⟩

/-- C2 (counterexample): the similarity score is not symmetric —
`calculateSimilarity "b b" "b" = 2` but `calculateSimilarity "b" "b b" = 1`,
because only the first argument's duplicates are counted by the numerator. -/
theorem C2_counterexample :
    calculateSimilarity "b b" "b" ≠ calculateSimilarity "b" "b b" := by
  have hnum : (List.filter (fun w => decide (w ∈ jsTokens "b")) (jsTokens "b b")).length = 2 := by
    decide
  have hden : ((jsTokens "b b" ++ jsTokens "b").dedup).length = 1 := by decide
  have hnum2 : (List.filter (fun w => decide (w ∈ jsTokens "b b")) (jsTokens "b")).length = 1 := by
    decide
  have hden2 : ((jsTokens "b" ++ jsTokens "b b").dedup).length = 1 := by decide
  have h1 : calculateSimilarity "b b" "b" = 2 := by
    rw [calculateSimilarity, hnum, hden]
    norm_num
  have h2 : calculateSimilarity "b" "b b" = 1 := by
    rw [calculateSimilarity, hnum2, hden2]
    norm_num
  rw [h1, h2]
  norm_num

/-- C2 (amended): the similarity score is symmetric on every pair of titles
whose token lists are duplicate-free (each side then computes the symmetric
token-set Jaccard index). -/
theorem C2_similarity_symm (a b : String)
    (ha : (jsTokens a).Nodup) (hb : (jsTokens b).Nodup) :
    calculateSimilarity a b = calculateSimilarity b a := by
  rw [calcSim_eq_jaccard_of_nodup ha, calcSim_eq_jaccard_of_nodup hb, jaccard_symm]

theorem C2_similarity_symm_witness :
    (jsTokens "x y").Nodup ∧ (jsTokens "y z").Nodup ∧
    calculateSimilarity "x y" "y z" = calculateSimilarity "y z" "x y" :=
  ⟨by decide, by decide, C2_similarity_symm "x y" "y z" (by decide) (by decide)⟩

/-- C3 (counterexample): two empty titles do NOT yield similarity 0: JS
`"".split(/\s+/)` is `[""]`, so both titles share the empty token and the
score is 1.  Moreover self-similarity is not 1 for every non-empty title:
`"c c"` gives 2. -/
theorem C3_counterexample :
    calculateSimilarity "" "" = 1 ∧
    calculateSimilarity "c c" "c c" = 2 := by
  have hnum : (List.filter (fun w => decide (w ∈ jsTokens "")) (jsTokens "")).length = 1 := by
    decide
  have hden : ((jsTokens "" ++ jsTokens "").dedup).length = 1 := by decide
  have hnum2 : (List.filter (fun w => decide (w ∈ jsTokens "c c")) (jsTokens "c c")).length = 2 := by
    decide
  have hden2 : ((jsTokens "c c" ++ jsTokens "c c").dedup).length = 1 := by decide
  constructor
  · rw [calculateSimilarity, hnum, hden]
    norm_num
  · rw [calculateSimilarity, hnum2, hden2]
    norm_num

/-- C3 (amended): self-similarity is 1 for every title whose token list is
duplicate-free; two titles sharing no token score 0; two empty titles score 1
(each tokenizes to the single empty token, NOT to the empty set); and the
union denominator is always positive, so the division is never 0/0 (no NaN). -/
theorem C3_boundary (t t1 t2 : String) (hnd : (jsTokens t).Nodup)
    (hdisj : ∀ w ∈ jsTokens t1, w ∉ jsTokens t2) :
    calculateSimilarity t t = 1 ∧ calculateSimilarity t1 t2 = 0 ∧
    calculateSimilarity "" "" = 1 ∧
    (0 : ℚ) < ((jsTokens t1 ++ jsTokens t2).dedup.length : ℚ) := by
  refine ⟨?_, ?_, ?_, ?_⟩
  · simp only [calculateSimilarity]
    have hfil : (jsTokens t).filter (fun w => decide (w ∈ jsTokens t)) = jsTokens t :=
      List.filter_eq_self.mpr fun a ha => by simpa using ha
    have hden : ((jsTokens t ++ jsTokens t).dedup).length = (jsTokens t).length := by
      rw [← List.card_toFinset, List.toFinset_append, Finset.union_self,
        List.toFinset_card_of_nodup hnd]
    rw [hfil, hden, div_self]
    exact Nat.cast_ne_zero.mpr (by simpa [List.length_eq_zero] using jsTokens_ne_nil t)
  · simp only [calculateSimilarity]
    have hfil : (jsTokens t1).filter (fun w => decide (w ∈ jsTokens t2)) = [] :=
      List.filter_eq_nil_iff.mpr fun a ha => by simpa using hdisj a ha
    rw [hfil]
    simp
  · have hnum : (List.filter (fun w => decide (w ∈ jsTokens "")) (jsTokens "")).length = 1 := by
      decide
    have hden : ((jsTokens "" ++ jsTokens "").dedup).length = 1 := by decide
    rw [calculateSimilarity, hnum, hden]
    norm_num
  · exact_mod_cast List.length_pos.mpr (tokensUnion_ne_nil t1 t2)

theorem C3_boundary_witness :
    (jsTokens "u v").Nodup ∧ (∀ w ∈ jsTokens "p", w ∉ jsTokens "q") ∧
    (calculateSimilarity "u v" "u v" = 1 ∧ calculateSimilarity "p" "q" = 0 ∧
      calculateSimilarity "" "" = 1 ∧
      (0 : ℚ) < ((jsTokens "p" ++ jsTokens "q").dedup.length : ℚ)) :=
  ⟨by decide, by decide, C3_boundary "u v" "p" "q" (by decide) (by decide)⟩

/-! ## Claims C4–C5: price aggregation -/

theorem sortAsc_eq_of_perm_sorted {l s : List ℚ} (hp : s.Perm l) (hs : s.Sorted (· ≤ ·)) :
    sortAsc l = s :=
  List.eq_of_perm_of_sorted ((List.perm_insertionSort _ l).trans hp.symm)
    (List.sorted_insertionSort _ l) hs

theorem medianOfSorted_eq_medianSpec {s : List ℚ} (hne : s ≠ []) :
    medianOfSorted s = medianSpec s := by
  rw [medianOfSorted, medianSpec, if_neg hne]
  rcases Nat.mod_two_eq_zero_or_one s.length with h | h
  · rw [if_pos h, if_neg (by omega)]
  · rw [if_neg (by omega), if_pos h]

/-- C4: the base price is the standard median of the strictly-positive prices
pooled across all three sources.  Stated against ANY ascending-sorted
permutation `s` of the pooled positive prices: for odd length the middle
element, for even length the mean of the two middle elements, 0 when no
positive price survives the filter; and the pooled list is exactly the
`> 0` filter of the concatenated raw prices. -/
theorem C4_basePrice_median (md : MarketData) (emd : EnhancedMarketData) (s : List ℚ)
    (hperm : s.Perm (pooledPrices md emd)) (hsort : s.Sorted (· ≤ ·)) :
    calculateBasePrice md emd = medianSpec s ∧
    pooledPrices md emd =
      ((md.ebay.getD []).map EbayItem.price
          ++ (md.googleShopping.getD []).map GoogleShoppingItem.price
          ++ (emd.facebookListings.getD []).map FacebookListing.salePrice).filter
        fun p => decide (0 < p) := by
  constructor
  · by_cases he : pooledPrices md emd = []
    · have hs : s = [] := List.Perm.eq_nil (he ▸ hperm)
      simp [calculateBasePrice, he, hs, medianSpec]
    · have hne : s ≠ [] := fun h => he (List.Perm.eq_nil (h ▸ hperm).symm)
      have hemp : (pooledPrices md emd).isEmpty = false := by
        simpa [List.isEmpty_iff] using he
      rw [calculateBasePrice]
      simp only [hemp, Bool.false_eq_true, if_false]
      rw [sortAsc_eq_of_perm_sorted hperm hsort, medianOfSorted_eq_medianSpec hne]
  · simp [pooledPrices, List.filter_append]

theorem C4_basePrice_median_witness :
    (([1, 2, 3] : List ℚ).Perm (pooledPrices ⟨some [⟨3⟩, ⟨1⟩], some [⟨2⟩]⟩ ⟨some []⟩) ∧
      ([1, 2, 3] : List ℚ).Sorted (· ≤ ·) ∧
      calculateBasePrice ⟨some [⟨3⟩, ⟨1⟩], some [⟨2⟩]⟩ ⟨some []⟩ = medianSpec [1, 2, 3] ∧
      medianSpec ([1, 2, 3] : List ℚ) = 2) ∧
    (([10, 40] : List ℚ).Perm (pooledPrices ⟨some [⟨10⟩, ⟨40⟩], none⟩ ⟨none⟩) ∧
      ([10, 40] : List ℚ).Sorted (· ≤ ·) ∧
      calculateBasePrice ⟨some [⟨10⟩, ⟨40⟩], none⟩ ⟨none⟩ = medianSpec [10, 40] ∧
      medianSpec ([10, 40] : List ℚ) = 25) :=
  ⟨⟨by decide, by decide,
      (C4_basePrice_median ⟨some [⟨3⟩, ⟨1⟩], some [⟨2⟩]⟩ ⟨some []⟩ [1, 2, 3]
        (by decide) (by decide)).1,
      by decide⟩,
    ⟨by decide, by decide,
      (C4_basePrice_median ⟨some [⟨10⟩, ⟨40⟩], none⟩ ⟨none⟩ [10, 40]
        (by decide) (by decide)).1,
      by
        rw [medianSpec, if_neg (by decide), if_neg (by decide)]
        norm_num⟩⟩

/-- C5 (counterexample): with no eBay or Google Shopping listings and a
single Facebook Marketplace listing priced 10, the base price is 10 while
`analyzeComparables` reports medianPrice 0 — the comparable statistics do NOT
pool Facebook prices, so they are not computed over the same set the base
price uses. -/
theorem C5_counterexample :
    calculateBasePrice ⟨none, none⟩ ⟨some [⟨10⟩]⟩ = 10 ∧
    (analyzeComparables ⟨none, none⟩).medianPrice = 0 ∧
    calculateBasePrice ⟨none, none⟩ ⟨some [⟨10⟩]⟩ ≠
      (analyzeComparables ⟨none, none⟩).medianPrice := by
  refine ⟨by rfl, by rfl, ?_⟩
  norm_num [show calculateBasePrice ⟨none, none⟩ ⟨some [⟨10⟩]⟩ = 10 from rfl,
    show (analyzeComparables ⟨none, none⟩).medianPrice = 0 from rfl]

/-- C5 (amended): the comparable-analysis statistics are computed over the
pooled positive eBay and Google Shopping prices ONLY (Facebook Marketplace is
excluded there, although `calculateBasePrice` includes it); consequently
`medianPrice` equals the base price exactly when Facebook contributes no
positive price, and count and mean are those of the eBay+Google pool. -/
theorem C5_comparables_pool (md : MarketData) (emd : EnhancedMarketData)
    (hfb : ((emd.facebookListings.getD []).map FacebookListing.salePrice).filter
      (fun p => decide (0 < p)) = []) :
    (analyzeComparables md).medianPrice = calculateBasePrice md emd ∧
    (analyzeComparables md).totalComparables = (comparablePrices md).length ∧
    (analyzeComparables md).averagePrice =
      (comparablePrices md).foldl (· + ·) 0 / ((comparablePrices md).length : ℚ) := by
  have hpool : pooledPrices md emd = comparablePrices md := by
    simp [pooledPrices, comparablePrices, hfb]
  by_cases hc : comparablePrices md = []
  · refine ⟨?_, ?_, ?_⟩ <;>
      simp [analyzeComparables, calculateBasePrice, hpool, hc]
  · have hemp : (comparablePrices md).isEmpty = false := by
      simpa [List.isEmpty_iff] using hc
    refine ⟨?_, ?_, ?_⟩ <;>
      simp [analyzeComparables, calculateBasePrice, hpool, hemp]

theorem C5_comparables_pool_witness :
    ((⟨some [⟨-3⟩]⟩ : EnhancedMarketData).facebookListings.getD [] |>.map
        FacebookListing.salePrice |>.filter fun p => decide (0 < p)) = [] ∧
    ((analyzeComparables ⟨some [⟨5⟩], none⟩).medianPrice =
        calculateBasePrice ⟨some [⟨5⟩], none⟩ ⟨some [⟨-3⟩]⟩ ∧
      (analyzeComparables ⟨some [⟨5⟩], none⟩).totalComparables =
        (comparablePrices ⟨some [⟨5⟩], none⟩).length ∧
      (analyzeComparables ⟨some [⟨5⟩], none⟩).averagePrice =
        (comparablePrices ⟨some [⟨5⟩], none⟩).foldl (· + ·) 0 /
          ((comparablePrices ⟨some [⟨5⟩], none⟩).length : ℚ)) :=
  ⟨by decide, C5_comparables_pool ⟨some [⟨5⟩], none⟩ ⟨some [⟨-3⟩]⟩ (by decide)⟩

/-! ## Claim C6: condition adjustment -/

/-- C6 (counterexample): at grade `"good"` with condition score 0 — a value
inside [0,1] — the code applies multiplier 0.65: `condition.score ? ... : 0`
is a JS truthiness test, so score 0 skips the fine-tuning, while the claimed
formula `clamp(0.65 + (0 − 0.5) × 0.2)` gives 0.55. -/
theorem C6_counterexample :
    conditionFinalMultiplier ⟨"good", 0⟩ = 0.65 ∧
    max 0.1 (min 1.0 (getConditionMultiplier "good" + ((0 : ℚ) - 0.5) * 0.2)) = 0.55 ∧
    conditionFinalMultiplier ⟨"good", 0⟩ ≠
      max 0.1 (min 1.0 (getConditionMultiplier "good" + ((0 : ℚ) - 0.5) * 0.2)) := by
  have hg : getConditionMultiplier "good" = 0.65 := by
    rw [getConditionMultiplier, show normalizeGrade "good" = "good" from by decide,
      conditionMultipliersTable]
    rw [if_neg (by decide), if_neg (by decide), if_neg (by decide), if_pos rfl]
    rfl
  have h1 : conditionFinalMultiplier ⟨"good", 0⟩ = 0.65 := by
    simp only [conditionFinalMultiplier]
    rw [if_neg (by simp), hg]
    norm_num [min_def, max_def]
  have h2 : max 0.1 (min 1.0 (getConditionMultiplier "good" + ((0 : ℚ) - 0.5) * 0.2)) = 0.55 := by
    rw [hg]
    norm_num [min_def, max_def]
  refine ⟨h1, h2, ?_⟩
  rw [h1, h2]
  norm_num

/-- C6 (amended): for every grade and every NONZERO score the applied
condition multiplier equals the grade's table value (0.60 for unrecognized
grades) plus (score − 0.5) × 0.2, clamped to [0.1, 1.0]; a score of exactly 0
is falsy in JS and skips the fine-tuning.  For every grade and score the
applied multiplier stays within [0.1, 1.0]. -/
theorem C6_condition_adjustment (g : String) (s : ℚ) (hs : s ≠ 0) :
    conditionFinalMultiplier ⟨g, s⟩ =
      max 0.1 (min 1.0 (getConditionMultiplier g + (s - 0.5) * 0.2)) ∧
    (conditionMultipliersTable (normalizeGrade g) = none →
      getConditionMultiplier g = 0.6) ∧
    (∀ s' : ℚ, 0.1 ≤ conditionFinalMultiplier ⟨g, s'⟩ ∧
      conditionFinalMultiplier ⟨g, s'⟩ ≤ 1) := by
  refine ⟨?_, ?_, ?_⟩
  · simp only [conditionFinalMultiplier]
    rw [if_pos hs]
  · intro h
    rw [getConditionMultiplier, h]
    rfl
  · intro s'
    simp only [conditionFinalMultiplier]
    exact ⟨le_max_left _ _, max_le (by norm_num) ((min_le_left _ _).trans (by norm_num))⟩

theorem C6_condition_adjustment_witness :
    ((0.9 : ℚ) ≠ 0) ∧
    (conditionFinalMultiplier ⟨"poor", 0.9⟩ =
        max 0.1 (min 1.0 (getConditionMultiplier "poor" + ((0.9 : ℚ) - 0.5) * 0.2)) ∧
      (conditionMultipliersTable (normalizeGrade "poor") = none →
        getConditionMultiplier "poor" = 0.6) ∧
      (∀ s' : ℚ, 0.1 ≤ conditionFinalMultiplier ⟨"poor", s'⟩ ∧
        conditionFinalMultiplier ⟨"poor", s'⟩ ≤ 1)) :=
  ⟨by norm_num, C6_condition_adjustment "poor" 0.9 (by norm_num)⟩

/-! ## Claim C7: strategy selection -/

/-- C7: strategy `"velocity"` returns exactly competitivePrice × 0.85 and
`"margin"` exactly competitivePrice × 1.10; every other strategy (including
`"balanced"`) returns the margin bound on an up-trend with confidence > 0.7,
the velocity bound on a down-trend with confidence > 0.7, and the competitive
price otherwise. -/
theorem C7_strategy_selection (cp : ℚ) (t : MarketTrends) (s : String) :
    selectOptimalPrice cp (cp * 0.85) (cp * 1.1) "velocity" t = cp * 0.85 ∧
    selectOptimalPrice cp (cp * 0.85) (cp * 1.1) "margin" t = cp * 1.1 ∧
    (s ≠ "velocity" → s ≠ "margin" →
      ((t.direction = "up" ∧ t.confidence > 0.7 →
          selectOptimalPrice cp (cp * 0.85) (cp * 1.1) s t = cp * 1.1) ∧
        (t.direction = "down" ∧ t.confidence > 0.7 →
          selectOptimalPrice cp (cp * 0.85) (cp * 1.1) s t = cp * 0.85) ∧
        (¬(t.direction = "up" ∧ t.confidence > 0.7) →
          ¬(t.direction = "down" ∧ t.confidence > 0.7) →
          selectOptimalPrice cp (cp * 0.85) (cp * 1.1) s t = cp))) := by
  refine ⟨?_, ?_, ?_⟩
  · rw [selectOptimalPrice, if_pos rfl]
  · rw [selectOptimalPrice, if_neg (by decide), if_pos rfl]
  · intro hv hm
    refine ⟨?_, ?_, ?_⟩
    · intro h
      rw [selectOptimalPrice, if_neg hv, if_neg hm, if_pos h]
    · intro h
      have hne : ¬(t.direction = "up" ∧ t.confidence > 0.7) := fun hc =>
        absurd (h.1.symm.trans hc.1) (by decide)
      rw [selectOptimalPrice, if_neg hv, if_neg hm, if_neg hne, if_pos h]
    · intro h1 h2
      rw [selectOptimalPrice, if_neg hv, if_neg hm, if_neg h1, if_neg h2]

theorem C7_strategy_selection_witness :
    selectOptimalPrice 100 (100 * 0.85) (100 * 1.1) "velocity" ⟨"stable", 0.5, []⟩ = 100 * 0.85 ∧
    selectOptimalPrice 100 (100 * 0.85) (100 * 1.1) "margin" ⟨"stable", 0.5, []⟩ = 100 * 1.1 ∧
    selectOptimalPrice 100 (100 * 0.85) (100 * 1.1) "balanced" ⟨"up", 0.9, []⟩ = 100 * 1.1 ∧
    selectOptimalPrice 100 (100 * 0.85) (100 * 1.1) "balanced" ⟨"stable", 0.5, []⟩ = 100 :=
  ⟨(C7_strategy_selection 100 ⟨"stable", 0.5, []⟩ "balanced").1,
    (C7_strategy_selection 100 ⟨"stable", 0.5, []⟩ "balanced").2.1,
    ((C7_strategy_selection 100 ⟨"up", 0.9, []⟩ "balanced").2.2 (by decide) (by decide)).1
      ⟨rfl, by norm_num⟩,
    (((C7_strategy_selection 100 ⟨"stable", 0.5, []⟩ "balanced").2.2 (by decide)
          (by decide)).2.2
      (fun hc => absurd hc.1 (by decide)) (fun hc => absurd hc.1 (by decide)))⟩

/-! ## Claim C8: totality on empty input -/

/-- C8: with zero positive-priced listings across all sources the
orchestrator — a total function in this embedding, mirroring the fact that no
step of `analyzePricing` can throw on such input — returns a structurally
valid `PricingAnalysis` with recommended price 0, zero velocity/margin bounds
and price range, and zero comparables. -/
theorem C8_empty_input_total (pd : ProductData) (md : MarketData) (opts : PricingOptions)
    (emd : EnhancedMarketData) (t : MarketTrends)
    (h : pooledPrices md emd = []) :
    (analyzePricing pd md opts emd t).recommendedPrice = 0 ∧
    (analyzePricing pd md opts emd t).priceRange.min = 0 ∧
    (analyzePricing pd md opts emd t).priceRange.max = 0 ∧
    (analyzePricing pd md opts emd t).velocityOptimized = 0 ∧
    (analyzePricing pd md opts emd t).marginOptimized = 0 ∧
    (analyzePricing pd md opts emd t).comparableAnalysis.totalComparables = 0 := by
  have hbase : calculateBasePrice md emd = 0 := by
    simp [calculateBasePrice, h]
  have hcomp : competitivePriceOf pd md opts emd = 0 := by
    simp [competitivePriceOf, applyConditionAdjustment, applyCategoryAdjustment,
      applyCompetitivePositioning, hbase]
  have hsel : ∀ strat, selectOptimalPrice 0 0 0 strat t = 0 := by
    intro strat
    simp [selectOptimalPrice]
  have hcp : comparablePrices md = [] := by
    simp only [pooledPrices, List.append_eq_nil] at h
    simp [comparablePrices, h.1.1, h.1.2]
  refine ⟨?_, ?_, ?_, ?_, ?_, ?_⟩ <;>
    simp [analyzePricing, hcomp, hsel, hbase, analyzeComparables, hcp]

theorem C8_empty_input_total_witness :
    pooledPrices ⟨some [⟨-4⟩], none⟩ ⟨some []⟩ = [] ∧
    ((analyzePricing ⟨"t", "books", "acme", ⟨"good", 0.5⟩⟩ ⟨some [⟨-4⟩], none⟩
          ⟨none, none⟩ ⟨some []⟩ ⟨"stable", 0.5, []⟩).recommendedPrice = 0 ∧
      (analyzePricing ⟨"t", "books", "acme", ⟨"good", 0.5⟩⟩ ⟨some [⟨-4⟩], none⟩
          ⟨none, none⟩ ⟨some []⟩ ⟨"stable", 0.5, []⟩).priceRange.min = 0 ∧
      (analyzePricing ⟨"t", "books", "acme", ⟨"good", 0.5⟩⟩ ⟨some [⟨-4⟩], none⟩
          ⟨none, none⟩ ⟨some []⟩ ⟨"stable", 0.5, []⟩).priceRange.max = 0 ∧
      (analyzePricing ⟨"t", "books", "acme", ⟨"good", 0.5⟩⟩ ⟨some [⟨-4⟩], none⟩
          ⟨none, none⟩ ⟨some []⟩ ⟨"stable", 0.5, []⟩).velocityOptimized = 0 ∧
      (analyzePricing ⟨"t", "books", "acme", ⟨"good", 0.5⟩⟩ ⟨some [⟨-4⟩], none⟩
          ⟨none, none⟩ ⟨some []⟩ ⟨"stable", 0.5, []⟩).marginOptimized = 0 ∧
      (analyzePricing ⟨"t", "books", "acme", ⟨"good", 0.5⟩⟩ ⟨some [⟨-4⟩], none⟩
          ⟨none, none⟩ ⟨some []⟩ ⟨"stable", 0.5, []⟩).comparableAnalysis.totalComparables = 0) :=
  ⟨by decide,
    C8_empty_input_total ⟨"t", "books", "acme", ⟨"good", 0.5⟩⟩ ⟨some [⟨-4⟩], none⟩
      ⟨none, none⟩ ⟨some []⟩ ⟨"stable", 0.5, []⟩ (by decide)⟩

/-! ## Claim C9: price parsing -/

/-- C9: the round-trip `"$1,234.56" → 1234.56` holds, but on a price with two
thousands separators the claim fails against the code: `replace(',', '')`
removes only the FIRST comma, `parseFloat` stops at the remaining one, and
`"$1,234,567.89"` parses to 1234 instead of 1234567.89. -/
theorem C9_parse_price :
    parsePrice (.str "$1,234.56") = 1234.56 ∧
    parsePrice (.str "$1,234,567.89") = 1234 ∧
    parsePrice (.str "$1,234,567.89") ≠ 1234567.89 := by
  have hc : removeFirstComma ("$1,234.56".data.filter fun c =>
      c.isDigit || c == '.' || c == ',') = ['1', '2', '3', '4', '.', '5', '6'] := by decide
  have h1 : List.takeWhile Char.isDigit ['1', '2', '3', '4', '.', '5', '6'] =
      ['1', '2', '3', '4'] := by decide
  have h2 : List.dropWhile Char.isDigit ['1', '2', '3', '4', '.', '5', '6'] =
      ['.', '5', '6'] := by decide
  have h3 : List.takeWhile Char.isDigit ['5', '6'] = ['5', '6'] := by decide
  refine ⟨?_, by decide, ?_⟩
  · simp only [parsePrice]
    rw [if_neg (by decide), hc]
    simp only [jsParseFloat, h1, h2, h3]
    rw [show digitsToNat ['1', '2', '3', '4'] = 1234 from by decide,
      show digitsToNat ['5', '6'] = 56 from by decide]
    norm_num
  · rw [show parsePrice (.str "$1,234,567.89") = 1234 from by decide]
    norm_num

/-! ## Claim C10: price-range invariant -/

/-- C10: in every produced `PricingAnalysis` the price range is exactly
[competitivePrice × 0.85, competitivePrice × 1.10] — coinciding with the
velocity- and margin-optimized bounds — and whenever the competitive price is
nonnegative the recommended price lies inside that range for every strategy
and every trend signal. -/
theorem C10_price_range (pd : ProductData) (md : MarketData) (opts : PricingOptions)
    (emd : EnhancedMarketData) (t : MarketTrends)
    (h : 0 ≤ competitivePriceOf pd md opts emd) :
    (analyzePricing pd md opts emd t).priceRange.min =
      competitivePriceOf pd md opts emd * 0.85 ∧
    (analyzePricing pd md opts emd t).priceRange.max =
      competitivePriceOf pd md opts emd * 1.1 ∧
    (analyzePricing pd md opts emd t).priceRange.min =
      (analyzePricing pd md opts emd t).velocityOptimized ∧
    (analyzePricing pd md opts emd t).priceRange.max =
      (analyzePricing pd md opts emd t).marginOptimized ∧
    (analyzePricing pd md opts emd t).priceRange.min ≤
      (analyzePricing pd md opts emd t).recommendedPrice ∧
    (analyzePricing pd md opts emd t).recommendedPrice ≤
      (analyzePricing pd md opts emd t).priceRange.max := by
  have hsel : ∀ strat,
      competitivePriceOf pd md opts emd * 0.85 ≤
        selectOptimalPrice (competitivePriceOf pd md opts emd)
          (competitivePriceOf pd md opts emd * 0.85)
          (competitivePriceOf pd md opts emd * 1.1) strat t ∧
      selectOptimalPrice (competitivePriceOf pd md opts emd)
          (competitivePriceOf pd md opts emd * 0.85)
          (competitivePriceOf pd md opts emd * 1.1) strat t ≤
        competitivePriceOf pd md opts emd * 1.1 := by
    intro strat
    rw [selectOptimalPrice]
    split_ifs <;> constructor <;> linarith
  exact ⟨rfl, rfl, rfl, rfl, (hsel _).1, (hsel _).2⟩

theorem C10_price_range_witness :
    0 ≤ competitivePriceOf ⟨"t", "home", "acme", ⟨"new", 0.5⟩⟩ ⟨none, none⟩
        ⟨none, none⟩ ⟨none⟩ ∧
    ((analyzePricing ⟨"t", "home", "acme", ⟨"new", 0.5⟩⟩ ⟨none, none⟩ ⟨none, none⟩ ⟨none⟩
          ⟨"up", 0.9, []⟩).priceRange.min =
        competitivePriceOf ⟨"t", "home", "acme", ⟨"new", 0.5⟩⟩ ⟨none, none⟩
          ⟨none, none⟩ ⟨none⟩ * 0.85 ∧
      (analyzePricing ⟨"t", "home", "acme", ⟨"new", 0.5⟩⟩ ⟨none, none⟩ ⟨none, none⟩ ⟨none⟩
          ⟨"up", 0.9, []⟩).priceRange.max =
        competitivePriceOf ⟨"t", "home", "acme", ⟨"new", 0.5⟩⟩ ⟨none, none⟩
          ⟨none, none⟩ ⟨none⟩ * 1.1 ∧
      (analyzePricing ⟨"t", "home", "acme", ⟨"new", 0.5⟩⟩ ⟨none, none⟩ ⟨none, none⟩ ⟨none⟩
          ⟨"up", 0.9, []⟩).priceRange.min =
        (analyzePricing ⟨"t", "home", "acme", ⟨"new", 0.5⟩⟩ ⟨none, none⟩ ⟨none, none⟩ ⟨none⟩
          ⟨"up", 0.9, []⟩).velocityOptimized ∧
      (analyzePricing ⟨"t", "home", "acme", ⟨"new", 0.5⟩⟩ ⟨none, none⟩ ⟨none, none⟩ ⟨none⟩
          ⟨"up", 0.9, []⟩).priceRange.max =
        (analyzePricing ⟨"t", "home", "acme", ⟨"new", 0.5⟩⟩ ⟨none, none⟩ ⟨none, none⟩ ⟨none⟩
          ⟨"up", 0.9, []⟩).marginOptimized ∧
      (analyzePricing ⟨"t", "home", "acme", ⟨"new", 0.5⟩⟩ ⟨none, none⟩ ⟨none, none⟩ ⟨none⟩
          ⟨"up", 0.9, []⟩).priceRange.min ≤
        (analyzePricing ⟨"t", "home", "acme", ⟨"new", 0.5⟩⟩ ⟨none, none⟩ ⟨none, none⟩ ⟨none⟩
          ⟨"up", 0.9, []⟩).recommendedPrice ∧
      (analyzePricing ⟨"t", "home", "acme", ⟨"new", 0.5⟩⟩ ⟨none, none⟩ ⟨none, none⟩ ⟨none⟩
          ⟨"up", 0.9, []⟩).recommendedPrice ≤
        (analyzePricing ⟨"t", "home", "acme", ⟨"new", 0.5⟩⟩ ⟨none, none⟩ ⟨none, none⟩ ⟨none⟩
          ⟨"up", 0.9, []⟩).priceRange.max) :=
  ⟨by
    simp [competitivePriceOf, calculateBasePrice, pooledPrices, applyConditionAdjustment,
      applyCategoryAdjustment, applyCompetitivePositioning],
    C10_price_range ⟨"t", "home", "acme", ⟨"new", 0.5⟩⟩ ⟨none, none⟩ ⟨none, none⟩ ⟨none⟩
      ⟨"up", 0.9, []⟩
      (by
        simp [competitivePriceOf, calculateBasePrice, pooledPrices, applyConditionAdjustment,
          applyCategoryAdjustment, applyCompetitivePositioning])⟩

end InventoryAI
